import Mathlib

/-!
Verification of the rdeputy/plm repository against its specification.

The executable source is a React PLM CRUD frontend (pages, forms, API
client, routing).  The Engine Performance Monitor (EPM) described in
`docs/designs/EPM-DESIGN.md` exists only as a design document, so the EPM
components below are modelled from the specification text, while the PLM
frontend definitions are shallow embeddings of the TypeScript source.
-/

/-! ## PLM frontend: DocumentDetail (src/unnamed/part_000) -/

/-- `toFixed(1)` on the exact quotient `n / d`: the number of tenths,
rounded to the nearest tenth with ties rounded up (the divisors used by
`formatFileSize` are powers of two, so the JavaScript division is exact
and `toFixed` rounds the exact rational). -/
def roundTenths (n d : Nat) : Nat := (20 * n + d) / (2 * d)

/-- Renders a tenths count as a decimal string with one digit after the
point, as `toFixed(1)` does. -/
def oneDecimal (t : Nat) : String := toString (t / 10) ++ "." ++ toString (t % 10)

/-- `formatFileSize` from `DocumentDetail` (src/unnamed/part_000 lines 53-58).
The argument is `number | null`; `if (!bytes) return '-'` catches both
`null` and `0`. -/
def formatFileSize : Option Nat → String
  | none => "-"
  | some bytes =>
    if bytes = 0 then "-"
    else if bytes < 1024 then toString bytes ++ " B"
    else if bytes < 1024 * 1024 then oneDecimal (roundTenths bytes 1024) ++ " KB"
    else oneDecimal (roundTenths bytes (1024 * 1024)) ++ " MB"

/-- The fields of the loaded document that the `DocumentDetail` component
inspects when deciding which actions to render. -/
structure PlmDocument where
  id : String
  status : String
  file_name : Option String
  file_size : Option Nat
deriving DecidableEq

/-- `canEdit` from `DocumentDetail` (src/unnamed/part_000 line 51):
`doc.status === 'draft' || doc.status === 'in_review'`. -/
def canEdit (doc : PlmDocument) : Bool :=
  doc.status == "draft" || doc.status == "in_review"

/-- The header actions `DocumentDetail` can render. -/
inductive DetailAction where
  | editLink (href : String)
  | downloadButton
deriving DecidableEq

/-- The actions rendered by `DocumentDetail`'s `DetailPageHeader`
(src/unnamed/part_000 lines 74-91): the Edit link is rendered exactly when
`canEdit`, the Download button exactly when a file name is present. -/
def documentDetailActions (doc : PlmDocument) : List DetailAction :=
  (if canEdit doc then [DetailAction.editLink ("/documents/" ++ doc.id ++ "/edit")] else [])
    ++ (if doc.file_name.isSome then [DetailAction.downloadButton] else [])

/-! ## PLM frontend: StatusBadge (src/frontend/src/components/forms/StatusBadge.tsx) -/

/-- `defaultColors` from StatusBadge.tsx lines 6-19. -/
def defaultColors : List (String × String) :=
  [ ("draft", "bg-gray-100 text-gray-800")
  , ("in_review", "bg-yellow-100 text-yellow-800")
  , ("released", "bg-green-100 text-green-800")
  , ("approved", "bg-green-100 text-green-800")
  , ("active", "bg-green-100 text-green-800")
  , ("obsolete", "bg-red-100 text-red-800")
  , ("rejected", "bg-red-100 text-red-800")
  , ("cancelled", "bg-red-100 text-red-800")
  , ("pending", "bg-yellow-100 text-yellow-800")
  , ("submitted", "bg-blue-100 text-blue-800")
  , ("implemented", "bg-purple-100 text-purple-800")
  , ("closed", "bg-gray-100 text-gray-800") ]

/-- The names of the inherited `Object.prototype` members visible through
a JavaScript property read on a plain object literal; each evaluates to a
truthy value (a function, or `Object.prototype` itself for `__proto__`). -/
def objectPrototypeProps : List String :=
  [ "constructor", "hasOwnProperty", "isPrototypeOf", "propertyIsEnumerable"
  , "toLocaleString", "toString", "valueOf", "__proto__"
  , "__defineGetter__", "__defineSetter__", "__lookupGetter__", "__lookupSetter__" ]

/-- The value of the badge's color expression: a CSS class string, or the
truthy non-string value a `colors[status]` read inherits from
`Object.prototype`. -/
inductive BadgeColor where
  | cls (s : String)
  | inheritedJunk (name : String)
deriving DecidableEq

/-- `colors[status] || 'bg-gray-100 text-gray-800'` with
`colors = colorMap || defaultColors` (StatusBadge.tsx lines 22-23).
`colors[status]` is a JavaScript property read on a plain object: an own
key yields its string (with the falsy empty string falling back); a status
naming an inherited `Object.prototype` member yields that truthy inherited
value, so the gray fallback is NOT applied there; any other status reads
`undefined` and the gray fallback applies. -/
def statusBadgeColor (colorMap : Option (List (String × String))) (status : String) : BadgeColor :=
  match List.lookup status (colorMap.getD defaultColors) with
  | some v =>
    if v = "" then BadgeColor.cls "bg-gray-100 text-gray-800" else BadgeColor.cls v
  | none =>
    if objectPrototypeProps.contains status then BadgeColor.inheritedJunk status
    else BadgeColor.cls "bg-gray-100 text-gray-800"

/-- The character substitution performed by `status.replace(/_/g, ' ')`. -/
def underscoreToSpace (c : Char) : Char := if c = '_' then ' ' else c

/-- The badge label: every underscore replaced by a space
(StatusBadge.tsx line 27). -/
def statusBadgeLabel (status : String) : String :=
  ⟨status.data.map underscoreToSpace⟩

/-- The span rendered by `StatusBadge`: the color value interpolated into
its class string, and its text. -/
structure RenderedBadge where
  color : BadgeColor
  label : String
deriving DecidableEq

/-- `StatusBadge` (StatusBadge.tsx lines 21-29) as a pure render function. -/
def StatusBadge (colorMap : Option (List (String × String))) (status : String) : RenderedBadge :=
  ⟨statusBadgeColor colorMap status, statusBadgeLabel status⟩

/-! ## PLM frontend: routing (src/unnamed/part_013) and page components -/

/-- The page components imported and routed by `App` (src/unnamed/part_013). -/
inductive PageComponent where
  | dashboard | parts | partDetail | partFormPage
  | boms | bomDetail | documents | documentDetail
  | changes | changeDetail | projects | projectDetail
  | requirements | requirementDetail | suppliers | compliance
  | costing | bulletins | bulletinDetail | placeholder
deriving DecidableEq

/-- Whether the component's source contains at least one `useQuery` data
fetch.  Surveyed per component: Dashboard has 3, PartDetail 2,
ProjectDetail 3, Suppliers 2, Compliance 2, Bulletins 3, every other
listed page 1 — except `Placeholder`
(src/frontend/src/pages/Placeholder.tsx), which renders a static
"under construction" view and fetches nothing. -/
def usesQuery : PageComponent → Bool
  | .placeholder => false
  | _ => true

/-- One `<Route>` of the `App` router: path and rendered component. -/
structure Route where
  path : String
  component : PageComponent
deriving DecidableEq

/-- The route table of `App` (src/unnamed/part_013 lines 38-92), in source
order.  The `new` and `edit` routes for BOMs, documents, changes, projects
and requirements all render `Placeholder`. -/
def appRoutes : List Route :=
  [ ⟨"dashboard", .dashboard⟩
  , ⟨"parts", .parts⟩
  , ⟨"parts/new", .partFormPage⟩
  , ⟨"parts/:id", .partDetail⟩
  , ⟨"parts/:id/edit", .partFormPage⟩
  , ⟨"boms", .boms⟩
  , ⟨"boms/new", .placeholder⟩
  , ⟨"boms/:id", .bomDetail⟩
  , ⟨"boms/:id/edit", .placeholder⟩
  , ⟨"documents", .documents⟩
  , ⟨"documents/new", .placeholder⟩
  , ⟨"documents/:id", .documentDetail⟩
  , ⟨"documents/:id/edit", .placeholder⟩
  , ⟨"changes", .changes⟩
  , ⟨"changes/new", .placeholder⟩
  , ⟨"changes/:id", .changeDetail⟩
  , ⟨"changes/:id/edit", .placeholder⟩
  , ⟨"projects", .projects⟩
  , ⟨"projects/new", .placeholder⟩
  , ⟨"projects/:id", .projectDetail⟩
  , ⟨"projects/:id/edit", .placeholder⟩
  , ⟨"requirements", .requirements⟩
  , ⟨"requirements/new", .placeholder⟩
  , ⟨"requirements/:id", .requirementDetail⟩
  , ⟨"requirements/:id/edit", .placeholder⟩
  , ⟨"suppliers", .suppliers⟩
  , ⟨"compliance", .compliance⟩
  , ⟨"costing", .costing⟩
  , ⟨"bulletins", .bulletins⟩
  , ⟨"bulletins/:id", .bulletinDetail⟩ ]

/-! ## Repository inventory (for the claim that no EPM core is implemented) -/

/-- The kinds of executable source unit found under src/. -/
inductive UnitKind where
  | page | form | uiComponent | apiClient | routing
deriving DecidableEq

/-- One exported function or object of the executable source. -/
structure RepoUnit where
  name : String
  kind : UnitKind
deriving DecidableEq

/-- Every exported component/function/object of the executable source under
src/ (pages, form components, UI components including the `ProtectedRoute`
auth guard and `TabPanel`, the axios API client objects, and the router),
surveyed file by file over every `export` in the tree; no exported types
or interfaces exist besides these.  The design document
`docs/designs/EPM-DESIGN.md` and the markdown checkpoints contain no code. -/
def repoUnits : List RepoUnit :=
  [ ⟨"Dashboard", .page⟩, ⟨"Parts", .page⟩, ⟨"PartDetail", .page⟩
  , ⟨"PartFormPage", .page⟩, ⟨"Projects", .page⟩, ⟨"ProjectDetail", .page⟩
  , ⟨"ProjectFormPage", .page⟩, ⟨"Boms", .page⟩, ⟨"BomDetail", .page⟩
  , ⟨"BomFormPage", .page⟩, ⟨"Documents", .page⟩, ⟨"DocumentDetail", .page⟩
  , ⟨"DocumentFormPage", .page⟩, ⟨"Changes", .page⟩, ⟨"ChangeDetail", .page⟩
  , ⟨"ChangeFormPage", .page⟩, ⟨"Requirements", .page⟩
  , ⟨"RequirementDetail", .page⟩, ⟨"RequirementFormPage", .page⟩
  , ⟨"Suppliers", .page⟩, ⟨"Compliance", .page⟩, ⟨"Costing", .page⟩
  , ⟨"Bulletins", .page⟩, ⟨"BulletinDetail", .page⟩, ⟨"Placeholder", .page⟩
  , ⟨"BomForm", .form⟩, ⟨"ChangeForm", .form⟩, ⟨"DocumentForm", .form⟩
  , ⟨"PartForm", .form⟩, ⟨"RequirementForm", .form⟩, ⟨"ProjectForm", .form⟩
  , ⟨"FormField", .form⟩, ⟨"SelectInput", .form⟩, ⟨"TextInput", .form⟩
  , ⟨"StatusBadge", .form⟩
  , ⟨"Layout", .uiComponent⟩, ⟨"ProtectedRoute", .uiComponent⟩
  , ⟨"DetailPageHeader", .uiComponent⟩, ⟨"TabPanel", .uiComponent⟩
  , ⟨"DetailSection", .uiComponent⟩, ⟨"InfoGrid", .uiComponent⟩
  , ⟨"InfoItem", .uiComponent⟩, ⟨"CadFileUpload", .uiComponent⟩
  , ⟨"api", .apiClient⟩, ⟨"partsApi", .apiClient⟩, ⟨"bomsApi", .apiClient⟩
  , ⟨"projectsApi", .apiClient⟩, ⟨"requirementsApi", .apiClient⟩
  , ⟨"suppliersApi", .apiClient⟩, ⟨"changesApi", .apiClient⟩
  , ⟨"documentsApi", .apiClient⟩, ⟨"complianceApi", .apiClient⟩
  , ⟨"costingApi", .apiClient⟩, ⟨"bulletinsApi", .apiClient⟩
  , ⟨"App", .routing⟩ ]

/-- The operations of the EPM core named by the specification (Bus
Transport, Aggregator ingest/tick, Alert Evaluator, Flight Recorder,
Analytics). -/
def epmOperationNames : List String :=
  [ "ingest", "tick", "evaluateSnapshot", "recordSnapshot", "busReceive"
  , "busSend", "detectPeak", "computeSpread", "openFlightRecord"
  , "closeFlightRecord" ]

/-- The data types of the EPM core named by the specification. -/
def epmTypeNames : List String :=
  [ "ChannelSample", "EngineSnapshot", "AlertEvent", "FlightRecord"
  , "ThresholdConfiguration", "BusFrame" ]

/-! ## EPM Engine State Aggregator -/

/-- Modelled from the spec: the EPM core is not implemented in this
repository.  A Channel Sample `(channel_id, timestamp, value, fault_flag)`
per spec section 3; timestamps in milliseconds. -/
structure ChannelSample where
  channel : Nat
  timestamp : Nat
  value : Int
  fault : Bool
deriving DecidableEq

/-- Modelled from the spec: the fixed 10 Hz tick cadence, one tick period
in milliseconds. -/
def tickPeriodMs : Nat := 100

/-- Modelled from the spec: the Aggregator's state, the most recent sample
per channel keyed by channel_id. -/
abbrev AggState := List (Nat × ChannelSample)

/-- Modelled from the spec: `ingest(sample)` records the most recent value
per channel keyed by channel_id (spec section 4.2). -/
def ingest (st : AggState) (s : ChannelSample) : AggState :=
  (s.channel, s) :: st.filter (fun p => p.1 != s.channel)

/-- Ingest a whole sequence of samples in arrival order. -/
def ingestAll (st : AggState) (samples : List ChannelSample) : AggState :=
  samples.foldl ingest st

/-- Modelled from the spec: one per-channel entry of an Engine Snapshot,
with the explicit stale flag and the propagated sensor-fault flag. -/
structure SnapEntry where
  channel : Nat
  value : Int
  stale : Bool
  fault : Bool
deriving DecidableEq

/-- Modelled from the spec: an Engine Snapshot, the aggregate of the latest
sample per channel at a tick boundary. -/
structure Snapshot where
  timestamp : Nat
  entries : List SnapEntry
deriving DecidableEq

/-- Modelled from the spec: a channel is stale when its last sample is
older than 3 tick periods (spec section 4.2). -/
def staleAge (now ts : Nat) : Bool := decide (ts + 3 * tickPeriodMs < now)

/-- Modelled from the spec: `tick() -> Snapshot` assembles a Snapshot from
the latest known value per channel, flagging any channel whose last sample
is older than 3 tick periods as stale and propagating sensor faults
(spec sections 4.2 and 7). -/
def tick (now : Nat) (st : AggState) : Snapshot :=
  ⟨now, st.map fun p => ⟨p.1, p.2.value, staleAge now p.2.timestamp, p.2.fault⟩⟩

/-! ## EPM Alert Evaluator -/

/-- Modelled from the spec: the per-parameter severity states of the Alert
Evaluator's state machine (spec section 4.3). -/
inductive Severity where
  | normal | caution | warning | critical
deriving DecidableEq, Inhabited

/-- Numeric rank of a severity, for comparing levels. -/
def sevRank : Severity → Nat
  | .normal => 0
  | .caution => 1
  | .warning => 2
  | .critical => 3

/-- Modelled from the spec: the per-parameter high thresholds for entering
Caution, Warning and Critical, and the hysteresis margin that must be
cleared before returning to a lower severity. -/
structure ParamThresholds where
  cautionHigh : Int
  warningHigh : Int
  criticalHigh : Int
  margin : Int
deriving DecidableEq

/-- The severity a raw value maps to without hysteresis: the highest level
whose high threshold the value exceeds. -/
def rawSeverity (cfg : ParamThresholds) (v : Int) : Severity :=
  if cfg.criticalHigh < v then .critical
  else if cfg.warningHigh < v then .warning
  else if cfg.cautionHigh < v then .caution
  else .normal

/-- The high threshold that admits a given severity level (unused for
Normal). -/
def enterThreshold (cfg : ParamThresholds) : Severity → Int
  | .normal => cfg.cautionHigh
  | .caution => cfg.cautionHigh
  | .warning => cfg.warningHigh
  | .critical => cfg.criticalHigh

/-- Modelled from the spec: one step of the per-parameter hysteresis state
machine (spec sections 4.3 and 9).  Escalation is immediate; returning to
a lower severity requires the value to clear the current level's threshold
by the configured margin. -/
def alertStep (cfg : ParamThresholds) (s : Severity) (v : Int) : Severity :=
  if sevRank s < sevRank (rawSeverity cfg v) then rawSeverity cfg v
  else if sevRank (rawSeverity cfg v) < sevRank s then
    (if v + cfg.margin ≤ enterThreshold cfg s then rawSeverity cfg v else s)
  else s

/-- The sequence of severity states visited while feeding a value sequence
through the state machine, starting from `s` (the trace includes `s`). -/
def sevTrace (cfg : ParamThresholds) (s : Severity) : List Int → List Severity
  | [] => [s]
  | v :: vs => s :: sevTrace cfg (alertStep cfg s v) vs

/-- Modelled from the spec: an Alert Event
`(severity, parameter, observed value, threshold, timestamp)`
(spec section 3; the flight id is carried by the owning Flight Record). -/
structure AlertEvent where
  severity : Severity
  parameter : Nat
  observed : Int
  threshold : Int
  timestamp : Nat
deriving DecidableEq

/-- Modelled from the spec: per-parameter threshold configuration, keyed by
channel id. -/
abbrev AlertConfig := List (Nat × ParamThresholds)

/-- The evaluator's per-parameter state: current severity per channel id. -/
abbrev EvalState := List (Nat × Severity)

/-- The current severity of a parameter (Normal when never seen). -/
def paramSeverity (est : EvalState) (p : Nat) : Severity :=
  (List.lookup p est).getD .normal

/-- Set the severity of one parameter. -/
def setParamSeverity (est : EvalState) (p : Nat) (s : Severity) : EvalState :=
  (p, s) :: est.filter (fun q => q.1 != p)

/-- Modelled from the spec: evaluate one Snapshot against the configured
thresholds, stepping each configured parameter's state machine and
emitting an Alert Event for each upward crossing.  Stale or faulted
entries are skipped, so a stale channel never fires a spurious alert
(spec sections 4.3 and 8). -/
def evalSnapshot (cfg : AlertConfig) (est : EvalState) (snap : Snapshot) :
    EvalState × List AlertEvent :=
  snap.entries.foldl
    (fun acc e =>
      if e.stale || e.fault then acc
      else
        match List.lookup e.channel cfg with
        | none => acc
        | some th =>
          let prev := paramSeverity acc.1 e.channel
          let next := alertStep th prev e.value
          if sevRank prev < sevRank next then
            (setParamSeverity acc.1 e.channel next,
             acc.2 ++ [⟨next, e.channel, e.value, enterThreshold th next, snap.timestamp⟩])
          else (setParamSeverity acc.1 e.channel next, acc.2))
    (est, [])

/-- Modelled from the spec: run the Alert Evaluator over a sequence of
Snapshots from a given state, returning the emitted Alert Events in
order. -/
def runEvaluator (cfg : AlertConfig) (est : EvalState) : List Snapshot → List AlertEvent
  | [] => []
  | s :: ss =>
    (evalSnapshot cfg est s).2 ++ runEvaluator cfg (evalSnapshot cfg est s).1 ss

/-! ## EPM tick pipeline: Recorder before Alert Evaluator -/

/-- Modelled from the spec: the state of the per-tick fan-out pipeline —
the Flight Recorder's stored log of Snapshots, the evaluator state, and
the Alert Events logged so far. -/
structure PipelineState where
  log : List Snapshot
  est : EvalState
  events : List AlertEvent
deriving DecidableEq

/-- The pipeline state at engine start: empty log, all parameters Normal,
no events. -/
def initPipeline : PipelineState := ⟨[], [], []⟩

/-- Modelled from the spec: process one tick's Snapshot in the fixed
consumer order — the Recorder persists the snapshot first, then the Alert
Evaluator acts on it (spec section 4.2). -/
def processSnapshot (cfg : AlertConfig) (st : PipelineState) (s : Snapshot) : PipelineState :=
  ⟨st.log ++ [s],
   (evalSnapshot cfg st.est s).1,
   st.events ++ (evalSnapshot cfg st.est s).2⟩

/-- Run the pipeline over a sequence of Snapshots. -/
def runPipeline (cfg : AlertConfig) (st : PipelineState) : List Snapshot → PipelineState
  | [] => st
  | s :: ss => runPipeline cfg (processSnapshot cfg st s) ss

/-! ## EPM Flight Recorder log: append-only framed records -/

/-- Modelled from the spec: the fixed-width wire encoding of one snapshot
entry — channel id, sign and magnitude of the value, stale bit, fault
bit. -/
def encodeEntry (e : SnapEntry) : List Nat :=
  [ e.channel
  , if e.value < 0 then 1 else 0
  , e.value.natAbs
  , if e.stale then 1 else 0
  , if e.fault then 1 else 0 ]

/-- Decode a flat sequence of 5-word entry encodings. -/
def decodeEntries : List Nat → List SnapEntry
  | c :: sgn :: mag :: st :: fl :: rest =>
    ⟨c, if sgn = 1 then -(mag : Int) else (mag : Int),
     decide (st = 1), decide (fl = 1)⟩ :: decodeEntries rest
  | _ => []

/-- Modelled from the spec: the payload of one recorded Snapshot —
timestamp followed by the flattened entries. -/
def encodeSnapshot (s : Snapshot) : List Nat :=
  s.timestamp :: (s.entries.map encodeEntry).flatten

/-- Decode one record payload back into a Snapshot. -/
def decodeSnapshot : List Nat → Snapshot
  | t :: rest => ⟨t, decodeEntries rest⟩
  | [] => ⟨0, []⟩

/-- Modelled from the spec: one atomic append to the recorder log — a
length-prefixed frame holding the record payload (append-only log
semantics, spec section 4.4). -/
def frameRecord (s : Snapshot) : List Nat :=
  (encodeSnapshot s).length :: encodeSnapshot s

/-- Modelled from the spec: the recorder log is the concatenation of the
frames of the recorded Snapshots, in order. -/
def serializeLog (log : List Snapshot) : List Nat :=
  (log.map frameRecord).flatten

/-- Modelled from the spec: read back a (possibly truncated) recorder log.
A record is recovered only when its whole frame is present; a partial
frame at the end of a truncated log is ignored. -/
def parseLog (l : List Nat) : List Snapshot :=
  match l with
  | [] => []
  | n :: rest =>
    if 1 ≤ n ∧ n ≤ rest.length then
      decodeSnapshot (rest.take n) :: parseLog (rest.drop n)
    else []
termination_by l.length
decreasing_by simp; omega

/-! ## EPM threshold configuration loading -/

/-- Modelled from the spec: one raw per-parameter `(low, high, severity)`
threshold entry as externally supplied (spec section 3). -/
structure RawThresholdEntry where
  param : String
  low : Int
  high : Int
  severity : Severity
deriving DecidableEq

/-- Modelled from the spec: the result of loading a threshold
configuration — the accepted per-parameter entries, and the startup
warnings raised for rejected entries. -/
structure LoadedConfig where
  entries : List (String × (Int × Int × Severity))
  warnings : List String
deriving DecidableEq

/-- The startup warning recorded for a rejected entry. -/
def loadWarning (p : String) : String :=
  "threshold misconfiguration for " ++ p ++ ": low > high, alerting disabled"

/-- Modelled from the spec: configuration loading.  An entry with
`low > high` is rejected at load time — it is excluded from the loaded
configuration (no alerting for that parameter) and a startup warning is
recorded; loading itself is a total function and never fails
(spec section 7). -/
def loadThresholds : List RawThresholdEntry → LoadedConfig
  | [] => ⟨[], []⟩
  | e :: rest =>
    let r := loadThresholds rest
    if e.high < e.low then ⟨r.entries, loadWarning e.param :: r.warnings⟩
    else ⟨(e.param, (e.low, e.high, e.severity)) :: r.entries, r.warnings⟩

/-! ## Theorems -/

/-- Claim C8: `formatFileSize` returns "-" when its argument is null and
when it is 0; for `0 < n < 1024` it returns `"<n> B"`; for
`1024 ≤ n < 1048576` it returns `n / 1024` rounded to one decimal followed
by `" KB"`; otherwise `n / 1048576` rounded to one decimal followed by
`" MB"`. -/
theorem formatFileSize_behavior :
    formatFileSize none = "-" ∧ formatFileSize (some 0) = "-" ∧
    (∀ n : Nat, 0 < n → n < 1024 →
      formatFileSize (some n) = toString n ++ " B") ∧
    (∀ n : Nat, 1024 ≤ n → n < 1024 * 1024 →
      formatFileSize (some n) = oneDecimal (roundTenths n 1024) ++ " KB") ∧
    (∀ n : Nat, 1024 * 1024 ≤ n →
      formatFileSize (some n) = oneDecimal (roundTenths n (1024 * 1024)) ++ " MB") := by
  refine ⟨rfl, rfl, ?_, ?_, ?_⟩
  · intro n h1 h2
    simp only [formatFileSize]
    split_ifs <;> first | rfl | omega
  · intro n h1 h2
    simp only [formatFileSize]
    split_ifs <;> first | rfl | omega
  · intro n h1
    simp only [formatFileSize]
    split_ifs <;> first | rfl | omega

/-- Witness for C8 at concrete inputs: 500 bytes, 2048 bytes (2.0 KB) and
3 MiB. -/
theorem formatFileSize_behavior_witness :
    formatFileSize (some 500) = toString 500 ++ " B" ∧
    formatFileSize (some 2048) = oneDecimal (roundTenths 2048 1024) ++ " KB" ∧
    formatFileSize (some 3145728) =
      oneDecimal (roundTenths 3145728 (1024 * 1024)) ++ " MB" :=
  ⟨formatFileSize_behavior.2.2.1 500 (by decide) (by decide),
   formatFileSize_behavior.2.2.2.1 2048 (by decide) (by decide),
   formatFileSize_behavior.2.2.2.2 3145728 (by decide)⟩

/-- Claim C9 (counterexample): the status "toString" is not a key of
`defaultColors`, yet the `colors[status]` read yields the truthy inherited
`Object.prototype.toString`, so the gray fallback class is not rendered —
refuting the claim's universal gray fallback for unknown statuses. -/
theorem statusBadge_prototype_counterexample :
    List.lookup "toString" defaultColors = none ∧
    (StatusBadge none "toString").color ≠
      BadgeColor.cls "bg-gray-100 text-gray-800" := by
  decide

/-- Claim C9 (amended): `StatusBadge` is total and replaces every
underscore of the status with a space in the rendered label; a status that
is neither a key of the effective color map nor the name of an inherited
`Object.prototype` member renders with the gray fallback class, while an
unknown status naming an inherited member (e.g. "toString") renders with
that truthy inherited value instead of the fallback. -/
theorem statusBadge_gray_fallback_outside_prototype :
    (∀ (cm : Option (List (String × String))) (status : String),
        List.lookup status (cm.getD defaultColors) = none →
        objectPrototypeProps.contains status = false →
        (StatusBadge cm status).color =
          BadgeColor.cls "bg-gray-100 text-gray-800") ∧
    (∀ (cm : Option (List (String × String))) (status : String),
        List.lookup status (cm.getD defaultColors) = none →
        objectPrototypeProps.contains status = true →
        (StatusBadge cm status).color = BadgeColor.inheritedJunk status) ∧
    (∀ (cm : Option (List (String × String))) (status : String),
        (StatusBadge cm status).label.data = status.data.map underscoreToSpace ∧
        '_' ∉ (StatusBadge cm status).label.data) := by
  refine ⟨?_, ?_, ?_⟩
  · intro cm status h1 h2
    have h2m : status ∉ objectPrototypeProps := by simpa using h2
    simp [StatusBadge, statusBadgeColor, h1, h2m]
  · intro cm status h1 h2
    have h2m : status ∈ objectPrototypeProps := by simpa using h2
    simp [StatusBadge, statusBadgeColor, h1, h2m]
  · intro cm status
    refine ⟨rfl, ?_⟩
    intro hmem
    obtain ⟨c, -, hc⟩ := List.mem_map.1 hmem
    by_cases h : c = '_'
    · simp [underscoreToSpace, h] at hc
    · rw [underscoreToSpace, if_neg h] at hc
      exact h hc

/-- Witness for the amended C9: "unknown_status" is neither a default key
nor a prototype member and gets the gray fallback, matching the
repository's own StatusBadge test. -/
theorem statusBadge_gray_fallback_witness :
    (StatusBadge none "unknown_status").color =
      BadgeColor.cls "bg-gray-100 text-gray-800" :=
  statusBadge_gray_fallback_outside_prototype.1 none "unknown_status"
    (by decide) (by decide)

/-- Claim C10: `DocumentDetail` renders the Edit action if and only if the
loaded document's status is exactly "draft" or "in_review". -/
theorem documentDetail_edit_iff_draft_or_in_review :
    ∀ doc : PlmDocument,
      DetailAction.editLink ("/documents/" ++ doc.id ++ "/edit") ∈ documentDetailActions doc ↔
        (doc.status = "draft" ∨ doc.status = "in_review") := by
  intro doc
  have hval : (canEdit doc = true) ↔ (doc.status = "draft" ∨ doc.status = "in_review") := by
    simp [canEdit]
  constructor
  · intro h
    rw [documentDetailActions] at h
    rcases List.mem_append.1 h with h | h
    · split_ifs at h with hc
      · exact hval.1 hc
      · simp at h
    · split_ifs at h <;> simp at h
  · intro h
    rw [documentDetailActions]
    refine List.mem_append.2 (Or.inl ?_)
    rw [if_pos (hval.2 h)]
    exact List.mem_singleton.2 rfl

/-- Claim C7 (counterexample): the route `boms/new` is in the `App` route
table and renders `Placeholder`, which issues no data fetch — so not
every routed page component fetches data. -/
theorem routed_placeholder_fetches_nothing :
    Route.mk "boms/new" PageComponent.placeholder ∈ appRoutes ∧
    usesQuery PageComponent.placeholder = false :=
  ⟨by decide, rfl⟩

/-- Claim C7 (amended): every page component routed by `App` other than
`Placeholder` issues at least one data fetch; the `new`/`edit` routes that
render `Placeholder` show a static under-construction page with no
fetch. -/
theorem non_placeholder_routes_fetch_data :
    ∀ r ∈ appRoutes, r.component ≠ PageComponent.placeholder →
      usesQuery r.component = true := by
  intro r _ hnp
  cases hc : r.component
  case placeholder => exact absurd hc hnp
  all_goals rfl

/-- Witness for the amended C7: the `parts` route's component fetches
data. -/
theorem non_placeholder_routes_fetch_data_witness :
    usesQuery PageComponent.parts = true :=
  non_placeholder_routes_fetch_data ⟨"parts", PageComponent.parts⟩ (by decide) (by decide)

/-- Claim C1: no source unit under src/ realizes any EPM core operation or
type — every exported unit of the executable source is part of the PLM
CRUD frontend (a page, form, UI component, API client object, or the
router), and none carries the name of an EPM operation or data type. -/
theorem plm_repo_has_no_epm_core :
    repoUnits.all (fun u =>
      (u.kind == UnitKind.page || u.kind == UnitKind.form
        || u.kind == UnitKind.uiComponent || u.kind == UnitKind.apiClient
        || u.kind == UnitKind.routing)
      && !(epmOperationNames.contains u.name)
      && !(epmTypeNames.contains u.name)) = true := by
  decide

/-- Every sample stored in the Aggregator's state after ingesting a
sequence was either already stored or is one of the ingested samples,
keyed by its own channel id. -/
theorem mem_ingestAll {samples : List ChannelSample} :
    ∀ {st : AggState} {c : Nat} {q : ChannelSample},
      (c, q) ∈ ingestAll st samples →
      (c, q) ∈ st ∨ (q ∈ samples ∧ q.channel = c) := by
  induction samples with
  | nil => intro st c q h; exact Or.inl h
  | cons s rest ih =>
    intro st c q h
    simp only [ingestAll, List.foldl_cons] at h
    rcases ih h with h' | h'
    · rcases List.mem_cons.1 h' with h2 | h2
      · rw [Prod.mk.injEq] at h2
        obtain ⟨hc, hq⟩ := h2
        subst hq
        exact Or.inr ⟨List.mem_cons_self _ _, hc.symm⟩
      · exact Or.inl (List.mem_filter.1 h2).1
    · exact Or.inr ⟨List.mem_cons_of_mem _ h'.1, h'.2⟩

/-- Claim C2: for every ingested sample sequence and every tick, the
Snapshot never contains a value for a channel whose most recent sample is
older than 3 tick periods unless that entry's stale flag is set — if every
sample of the entry's channel is older than 3 tick periods, the entry is
flagged stale. -/
theorem snapshot_stale_flag_invariant :
    ∀ (samples : List ChannelSample) (now : Nat) (e : SnapEntry),
      e ∈ (tick now (ingestAll [] samples)).entries →
      (∀ s ∈ samples, s.channel = e.channel →
        s.timestamp + 3 * tickPeriodMs < now) →
      e.stale = true := by
  intro samples now e he hold
  simp only [tick, List.mem_map] at he
  obtain ⟨⟨c, q⟩, hmem, hentry⟩ := he
  rcases mem_ingestAll hmem with h | ⟨hq, hc⟩
  · simp at h
  · subst hentry
    have hts : q.timestamp + 3 * tickPeriodMs < now := hold q hq (by simpa using hc)
    exact decide_eq_true hts

/-- Witness for C2: channel 5's only sample is at t = 0; at the tick at
t = 1000 ms the snapshot entry for channel 5 carries the stale flag. -/
theorem snapshot_stale_flag_witness :
    (⟨5, 42, true, false⟩ : SnapEntry) ∈
      (tick 1000 (ingestAll [] [⟨5, 0, 42, false⟩])).entries ∧
    (⟨5, 42, true, false⟩ : SnapEntry).stale = true :=
  ⟨by decide,
   snapshot_stale_flag_invariant [⟨5, 0, 42, false⟩] 1000 ⟨5, 42, true, false⟩
     (by decide) (by decide)⟩

/-- A single state-machine step can take Warning to Normal only when the
value clears the Warning threshold by the configured hysteresis margin. -/
theorem alertStep_warning_to_normal (cfg : ParamThresholds) (v : Int)
    (h : alertStep cfg Severity.warning v = Severity.normal) :
    v + cfg.margin ≤ cfg.warningHigh := by
  unfold alertStep at h
  cases hraw : rawSeverity cfg v <;> rw [hraw] at h <;>
      simp [sevRank, enterThreshold] at h
  · exact h
  · split at h <;> simp at h

/-- The first element of a severity trace is the starting state. -/
theorem sevTrace_head (cfg : ParamThresholds) (s : Severity) (vs : List Int) :
    (sevTrace cfg s vs).get? 0 = some s := by
  cases vs <;> rfl

/-- Claim C3: in every run of the per-parameter state machine, once the
parameter is in Warning it transitions to Normal only on a value that
clears the Warning threshold by the configured hysteresis margin — a
sample that merely crosses back over the raw threshold leaves it in
Warning. -/
theorem warning_to_normal_requires_margin :
    ∀ (cfg : ParamThresholds) (s : Severity) (vs : List Int) (i : Nat),
      (sevTrace cfg s vs).get? i = some Severity.warning →
      (sevTrace cfg s vs).get? (i + 1) = some Severity.normal →
      ∃ v, vs.get? i = some v ∧ v + cfg.margin ≤ cfg.warningHigh := by
  intro cfg s vs
  induction vs generalizing s with
  | nil =>
    intro i hw hn
    rw [show sevTrace cfg s [] = [s] from rfl] at hn
    cases i <;> simp at hn
  | cons v vs ih =>
    intro i hw hn
    rw [show sevTrace cfg s (v :: vs) = s :: sevTrace cfg (alertStep cfg s v) vs
          from rfl] at hw hn
    cases i with
    | zero =>
      simp only [List.get?_cons_zero, Option.some.injEq] at hw
      simp only [List.get?_cons_succ] at hn
      rw [sevTrace_head] at hn
      subst hw
      exact ⟨v, rfl, alertStep_warning_to_normal cfg v (Option.some.inj hn)⟩
    | succ i =>
      simp only [List.get?_cons_succ] at hw hn ⊢
      exact ih (alertStep cfg s v) i hw hn

/-- Witness for C3: with thresholds (100, 200, 300) and margin 10,
starting in Warning, the value 50 clears the margin and the trace steps
Warning to Normal. -/
theorem warning_margin_witness :
    ∃ v, (([50] : List Int).get? 0 = some v) ∧
      v + (ParamThresholds.mk 100 200 300 10).margin ≤
        (ParamThresholds.mk 100 200 300 10).warningHigh :=
  warning_to_normal_requires_margin ⟨100, 200, 300, 10⟩ Severity.warning [50] 0
    (by decide) (by decide)

/-- Running the pipeline appends the processed Snapshots to the Recorder
log and appends exactly the events the evaluator emits from the current
state. -/
theorem runPipeline_log_events (cfg : AlertConfig) :
    ∀ (snaps : List Snapshot) (st : PipelineState),
      (runPipeline cfg st snaps).log = st.log ++ snaps ∧
      (runPipeline cfg st snaps).events =
        st.events ++ runEvaluator cfg st.est snaps := by
  intro snaps
  induction snaps with
  | nil => intro st; simp [runPipeline, runEvaluator]
  | cons s ss ih =>
    intro st
    obtain ⟨h1, h2⟩ := ih (processSnapshot cfg st s)
    constructor
    · rw [show runPipeline cfg st (s :: ss) =
            runPipeline cfg (processSnapshot cfg st s) ss from rfl, h1]
      simp [processSnapshot]
    · rw [show runPipeline cfg st (s :: ss) =
            runPipeline cfg (processSnapshot cfg st s) ss from rfl, h2]
      simp [processSnapshot, runEvaluator]

/-- Claim C4: replaying the stored Flight Record's Snapshots through the
Alert Evaluator from its initial state with the same threshold
configuration reproduces exactly the Alert Event sequence that was logged
by the pipeline. -/
theorem replay_reproduces_alert_events :
    ∀ (cfg : AlertConfig) (snaps : List Snapshot),
      runEvaluator cfg initPipeline.est (runPipeline cfg initPipeline snaps).log =
        (runPipeline cfg initPipeline snaps).events := by
  intro cfg snaps
  obtain ⟨h1, h2⟩ := runPipeline_log_events cfg snaps initPipeline
  rw [h1, h2]
  simp [initPipeline]

/-- Unfolding equation for `parseLog` on a non-empty log. -/
theorem parseLog_cons (n : Nat) (rest : List Nat) :
    parseLog (n :: rest) =
      if 1 ≤ n ∧ n ≤ rest.length then
        decodeSnapshot (rest.take n) :: parseLog (rest.drop n)
      else [] := by
  rw [parseLog]

/-- Decoding inverts the entry encoding, entry by entry. -/
theorem decodeEntries_encode (e : SnapEntry) (rest : List Nat) :
    decodeEntries (encodeEntry e ++ rest) = e :: decodeEntries rest := by
  obtain ⟨c, v, st, fl⟩ := e
  simp only [encodeEntry, List.cons_append, List.nil_append, decodeEntries]
  refine congrArg (· :: decodeEntries rest) ?_
  simp only [SnapEntry.mk.injEq]
  refine ⟨trivial, ?_, ?_, ?_⟩
  · by_cases hv : v < 0
    · rw [if_pos hv, if_pos rfl, Int.ofNat_natAbs_of_nonpos (le_of_lt hv), neg_neg]
    · rw [if_neg hv, if_neg (by decide : ¬(0 : Nat) = 1), Int.natAbs_of_nonneg (not_lt.1 hv)]
  · cases st <;> rfl
  · cases fl <;> rfl

/-- Decoding inverts the encoding of a whole entry list. -/
theorem decodeEntries_flatten (entries : List SnapEntry) :
    decodeEntries (entries.map encodeEntry).flatten = entries := by
  induction entries with
  | nil => rfl
  | cons e es ih =>
    simp only [List.map_cons, List.flatten_cons, decodeEntries_encode, ih]

/-- Decoding inverts the Snapshot payload encoding. -/
theorem decodeSnapshot_encodeSnapshot (s : Snapshot) :
    decodeSnapshot (encodeSnapshot s) = s := by
  obtain ⟨t, entries⟩ := s
  simp [encodeSnapshot, decodeSnapshot, decodeEntries_flatten]

/-- The serialized log of a non-empty record list starts with the first
record's frame. -/
theorem serializeLog_cons (r : Snapshot) (rs : List Snapshot) :
    serializeLog (r :: rs) = frameRecord r ++ serializeLog rs := by
  simp [serializeLog]

/-- Parsing a log that starts with a complete frame recovers that record
and continues on the rest of the bytes. -/
theorem parseLog_frame (s : Snapshot) (tail : List Nat) :
    parseLog (frameRecord s ++ tail) = s :: parseLog tail := by
  have hcond : 1 ≤ (encodeSnapshot s).length ∧
      (encodeSnapshot s).length ≤ (encodeSnapshot s ++ tail).length := by
    constructor
    · simp [encodeSnapshot]
    · simp
  rw [frameRecord, List.cons_append, parseLog_cons, if_pos hcond,
    List.take_left, List.drop_left, decodeSnapshot_encodeSnapshot]

/-- Claim C5: truncating the serialized recorder log at any point leaves
every previously completed record readable — whenever the truncation point
covers the frames of the first `i` records, parsing the truncated log
recovers those `i` records (a partial frame at the cut is never
misparsed into the prior records). -/
theorem truncated_log_preserves_complete_records :
    ∀ (log : List Snapshot) (i k : Nat),
      (serializeLog (log.take i)).length ≤ k →
      ∃ rest, parseLog ((serializeLog log).take k) = log.take i ++ rest := by
  intro log
  induction log with
  | nil =>
    intro i k _
    exact ⟨parseLog ((serializeLog []).take k), by simp⟩
  | cons r rs ih =>
    intro i k h
    cases i with
    | zero => exact ⟨parseLog ((serializeLog (r :: rs)).take k), by simp⟩
    | succ j =>
      rw [List.take_succ_cons, serializeLog_cons, List.length_append] at h
      have hfr : (frameRecord r).length ≤ k := by omega
      obtain ⟨rest, hrest⟩ := ih j (k - (frameRecord r).length) (by omega)
      refine ⟨rest, ?_⟩
      rw [serializeLog_cons, List.take_append_eq_append_take,
        List.take_of_length_le hfr, parseLog_frame, hrest, List.take_succ_cons,
        List.cons_append]

/-- Witness for C5: a two-record log truncated one word into the second
record's frame still parses to the complete first record. -/
theorem truncated_log_witness :
    ∃ rest,
      parseLog ((serializeLog
          [⟨100, [⟨1, 5, false, false⟩]⟩, ⟨200, []⟩]).take 8) =
        ([⟨100, [⟨1, 5, false, false⟩]⟩, ⟨200, []⟩] : List Snapshot).take 1 ++ rest :=
  truncated_log_preserves_complete_records
    [⟨100, [⟨1, 5, false, false⟩]⟩, ⟨200, []⟩] 1 8 (by decide)

/-- Claim C6: a threshold entry with low > high is rejected at load time —
its startup warning is recorded, a parameter all of whose entries are
invalid gets no alerting (no lookup hit in the loaded configuration), and
every entry that does load satisfies low ≤ high, so loading never turns a
misconfiguration into a runtime crash. -/
theorem invalid_threshold_rejected_at_load :
    (∀ (entries : List RawThresholdEntry) (e : RawThresholdEntry),
        e ∈ entries → e.high < e.low →
        loadWarning e.param ∈ (loadThresholds entries).warnings) ∧
    (∀ (entries : List RawThresholdEntry) (p : String),
        (∀ e ∈ entries, e.param = p → e.high < e.low) →
        List.lookup p (loadThresholds entries).entries = none) ∧
    (∀ (entries : List RawThresholdEntry)
        (t : String × (Int × Int × Severity)),
        t ∈ (loadThresholds entries).entries → t.2.1 ≤ t.2.2.1) := by
  refine ⟨?_, ?_, ?_⟩
  · intro entries
    induction entries with
    | nil => intro e he; simp at he
    | cons a rest ih =>
      intro e he hbad
      rcases List.mem_cons.1 he with rfl | hmem
      · simp [loadThresholds, hbad]
      · have hrec := ih e hmem hbad
        by_cases hb : a.high < a.low <;> simp [loadThresholds, hb, hrec]
  · intro entries p
    induction entries with
    | nil => intro h; rfl
    | cons a rest ih =>
      intro h
      have hrest := ih fun e he hp => h e (List.mem_cons_of_mem _ he) hp
      by_cases hb : a.high < a.low
      · simpa [loadThresholds, hb] using hrest
      · have hne : a.param ≠ p := fun hp => hb (h a (List.mem_cons_self _ _) hp)
        have hbeq : (p == a.param) = false :=
          beq_eq_false_iff_ne.2 fun hp => hne hp.symm
        simp [loadThresholds, hb, List.lookup, hbeq, hrest]
  · intro entries
    induction entries with
    | nil => intro t ht; simp [loadThresholds] at ht
    | cons a rest ih =>
      intro t ht
      by_cases hb : a.high < a.low
      · exact ih t (by simpa [loadThresholds, hb] using ht)
      · rcases List.mem_cons.1 (by simpa [loadThresholds, hb] using ht)
          with rfl | hmem
        · simp only
          omega
        · exact ih t hmem

/-- Witness for C6: the single entry (oil_psi, low 50, high 20) is
rejected — its warning is recorded and the loaded configuration has no
thresholds for oil_psi. -/
theorem invalid_threshold_witness :
    loadWarning "oil_psi" ∈
      (loadThresholds [⟨"oil_psi", 50, 20, Severity.critical⟩]).warnings ∧
    List.lookup "oil_psi"
      (loadThresholds [⟨"oil_psi", 50, 20, Severity.critical⟩]).entries = none :=
  ⟨invalid_threshold_rejected_at_load.1 [⟨"oil_psi", 50, 20, Severity.critical⟩]
      ⟨"oil_psi", 50, 20, Severity.critical⟩ (by decide) (by decide),
   invalid_threshold_rejected_at_load.2.1 [⟨"oil_psi", 50, 20, Severity.critical⟩]
      "oil_psi" (by decide)⟩
